import Mathlib

set_option maxHeartbeats 1000000

namespace Conf

/-- Modelled from the spec: the build tool applies the pattern-valued
settings as regular expressions (full-match or search filters over branch
names, tag names, remote names and URLs); the regex engine itself is an
external collaborator, not part of this repository. This abstract syntax
covers the regex subset the configuration uses: literal characters, the
digit class, the any-character wildcard, concatenation and repetition. -/
inductive Regex where
  | eps : Regex
  | char : Char → Regex
  | dot : Regex
  | digit : Regex
  | seq : Regex → Regex → Regex
  | star : Regex → Regex
deriving DecidableEq

/-- Characters that carry special meaning in a pattern and are therefore
not plain literals. -/
def metaChars : List Char :=
  ['^', '$', '.', '*', '+', '?', '(', ')', '[', ']', '{', '}', '|', '\\']

/-- Modelled from the spec: parsing of the bare pattern body (anchors
already stripped) in the regex dialect the configuration uses. A repetition
`a+` is desugared to `a · a*`. Fuel bounds the recursion; one character at
least is consumed per step, so fuel equal to the input length suffices. -/
def parseAtoms : Nat → List Char → Option Regex
  | _, [] => some Regex.eps
  | 0, _ :: _ => none
  | fuel + 1, c :: rest =>
    let atom? : Option (Regex × List Char) :=
      if c = '\\' then
        match rest with
        | [] => none
        | e :: rest2 =>
          if e = 'd' then some (Regex.digit, rest2)
          else if e.isAlphanum then none
          else some (Regex.char e, rest2)
      else if c = '.' then some (Regex.dot, rest)
      else if c ∈ metaChars then none
      else some (Regex.char c, rest)
    match atom? with
    | none => none
    | some (a, rest2) =>
      match rest2 with
      | '*' :: rest3 =>
        match parseAtoms fuel rest3 with
        | none => none
        | some r => some (Regex.seq (Regex.star a) r)
      | '+' :: rest3 =>
        match parseAtoms fuel rest3 with
        | none => none
        | some r => some (Regex.seq (Regex.seq a (Regex.star a)) r)
      | _ =>
        match parseAtoms fuel rest2 with
        | none => none
        | some r => some (Regex.seq a r)

/-- A parsed pattern: whether it is anchored at the start, its body, and
whether it is anchored at the end. -/
structure Pattern where
  anchorStart : Bool
  body : Regex
  anchorEnd : Bool
deriving DecidableEq

/-- Strip a leading start anchor. -/
def stripCaret : List Char → Bool × List Char
  | '^' :: rest => (true, rest)
  | l => (false, l)

/-- Strip an unescaped trailing end anchor. -/
def splitEndAnchor (l : List Char) : Bool × List Char :=
  match l.reverse with
  | '$' :: c :: rest =>
    if c = '\\' then (false, l) else (true, (c :: rest).reverse)
  | ['$'] => (true, [])
  | _ => (false, l)

/-- Modelled from the spec: parsing a whole pattern string; `none` means
the string is not a syntactically valid pattern of the dialect. -/
def parseRegex (p : String) : Option Pattern :=
  let s := stripCaret p.data
  let e := splitEndAnchor s.2
  match parseAtoms e.2.length e.2 with
  | some r => some ⟨s.1, r, e.1⟩
  | none => none

/-- Modelled from the spec: the language of a regex body, standard regular
expression semantics. The wildcard matches any character except a newline. -/
inductive Matches : Regex → List Char → Prop where
  | eps : Matches Regex.eps []
  | char (c : Char) : Matches (Regex.char c) [c]
  | dot (c : Char) : c ≠ '\n' → Matches Regex.dot [c]
  | digit (c : Char) : c.isDigit = true → Matches Regex.digit [c]
  | seq {r1 r2 : Regex} {l1 l2 : List Char} :
      Matches r1 l1 → Matches r2 l2 → Matches (Regex.seq r1 r2) (l1 ++ l2)
  | starNil (r : Regex) : Matches (Regex.star r) []
  | starCons {r : Regex} {l1 l2 : List Char} :
      Matches r l1 → Matches (Regex.star r) l2 →
      Matches (Regex.star r) (l1 ++ l2)

/-- Modelled from the spec: a string fully matches a pattern when the
pattern parses and the whole string is in the language of its body (in a
full match the anchors are redundant). -/
def fullMatch (p s : String) : Prop :=
  ∃ pat, parseRegex p = some pat ∧ Matches pat.body s.data

/-- A regex that is a chain of literal characters followed by a
continuation. -/
def charSeqThen : List Char → Regex → Regex
  | [], r => r
  | c :: cs, r => Regex.seq (Regex.char c) (charSeqThen cs r)

-- Configuration values, from src/source/conf.py.

def project : String := "the iceoryx2 book"

def copyright : String := "2025, ekxide.io"

def author : String := "ekxide developers"

def extensions : List String :=
  ["sphinx.ext.autodoc",
   "sphinx.ext.viewcode",
   "sphinxcontrib.mermaid",
   "myst_parser",
   "sphinx_design",
   "sphinx_multiversion"]

def myst_enable_extensions : List String :=
  ["deflist", "attrs_block", "attrs_inline"]

def myst_heading_anchors : Int := 3

def smv_branch_whitelist : String := "^main$"

def smv_tag_whitelist : String := "^v\\d+\\.\\d+\\.\\d+$"

def smv_remote_whitelist : String := "^origin$"

def smv_released_pattern : String := "^tags/v\\d+\\.\\d+\\.\\d+$"

def templates_path : List String := ["_templates"]

def exclude_patterns : List String := []

def source_suffix : List (String × String) :=
  [(".rst", "restructuredtext"), (".md", "markdown")]

def linkcheck_timeout : Int := 30

def linkcheck_workers : Int := 5

def linkcheck_retries : Int := 3

def linkcheck_ignore : List String :=
  ["http://localhost.*", "http://127\\.0\\.0\\.1.*"]

def linkcheck_rate_limit_timeout : Rat := 60

def linkcheck_anchors : Bool := true

def html_theme : String := "furo"

def html_title : String := "The iceoryx2 Book"

def light_css_variables : List (String × String) :=
  [("color-brand-primary", "#6c7b7f"),
   ("color-brand-content", "#6c7b7f"),
   ("color-background-primary", "#ffffff"),
   ("color-background-secondary", "#f9fafb"),
   ("color-background-hover", "#f3f4f6"),
   ("color-background-border", "#e5e7eb"),
   ("color-foreground-primary", "#1f2937"),
   ("color-foreground-secondary", "#6b7280"),
   ("color-foreground-muted", "#9ca3af"),
   ("color-foreground-border", "#e5e7eb"),
   ("color-code-background", "#f3f4f6"),
   ("color-code-foreground", "#1f2937"),
   ("color-link", "#6c7b7f"),
   ("color-link-underline", "#6c7b7f"),
   ("color-link-underline--hover", "#4b5563"),
   ("color-sidebar-background", "#f9fafb"),
   ("color-sidebar-background-border", "#e5e7eb"),
   ("color-sidebar-item-background--hover", "#f3f4f6"),
   ("color-sidebar-link-text", "#4b5563"),
   ("color-sidebar-link-text--top-level", "#1f2937"),
   ("color-sidebar-caption-text", "#6b7280")]

def dark_css_variables : List (String × String) :=
  [("color-brand-primary", "#9ca3af"),
   ("color-brand-content", "#9ca3af"),
   ("color-background-primary", "#1C1D1F"),
   ("color-background-secondary", "#252628"),
   ("color-background-hover", "#2a2c2f"),
   ("color-background-border", "#38393b"),
   ("color-foreground-primary", "#d2dbde"),
   ("color-foreground-secondary", "#859399"),
   ("color-foreground-muted", "#859399"),
   ("color-foreground-border", "#38393b"),
   ("color-code-background", "#2a2c2f"),
   ("color-code-foreground", "#d2dbde"),
   ("color-link", "#9ca3af"),
   ("color-link-underline", "#9ca3af"),
   ("color-link-underline--hover", "#d1d5db"),
   ("color-sidebar-background", "#252628"),
   ("color-sidebar-background-border", "#38393b"),
   ("color-sidebar-item-background--hover", "#2a2c2f"),
   ("color-sidebar-link-text", "#d2dbde"),
   ("color-sidebar-link-text--top-level", "#ffffff"),
   ("color-sidebar-caption-text", "#859399")]

/-- The theme option bag of html_theme_options. -/
structure ThemeOptions where
  top_of_page_buttons : List String
  light : List (String × String)
  dark : List (String × String)

def html_theme_options : ThemeOptions :=
  ⟨[], light_css_variables, dark_css_variables⟩

def html_static_path : List String := ["_static"]

def html_permalinks_icon : String := "#"

def html_css_files : List String := ["css/custom.css"]

/-- The possible value shapes of a configuration setting. -/
inductive ConfValue where
  | str : String → ConfValue
  | strList : List String → ConfValue
  | int : Int → ConfValue
  | rat : Rat → ConfValue
  | bool : Bool → ConfValue
  | strMap : List (String × String) → ConfValue
  | theme : ThemeOptions → ConfValue

/-- The whole configuration module viewed as a table from setting name to
value, in source order. -/
def confTable : List (String × ConfValue) :=
  [("project", ConfValue.str project),
   ("copyright", ConfValue.str copyright),
   ("author", ConfValue.str author),
   ("extensions", ConfValue.strList extensions),
   ("myst_enable_extensions", ConfValue.strList myst_enable_extensions),
   ("myst_heading_anchors", ConfValue.int myst_heading_anchors),
   ("smv_branch_whitelist", ConfValue.str smv_branch_whitelist),
   ("smv_tag_whitelist", ConfValue.str smv_tag_whitelist),
   ("smv_remote_whitelist", ConfValue.str smv_remote_whitelist),
   ("smv_released_pattern", ConfValue.str smv_released_pattern),
   ("templates_path", ConfValue.strList templates_path),
   ("exclude_patterns", ConfValue.strList exclude_patterns),
   ("source_suffix", ConfValue.strMap source_suffix),
   ("linkcheck_timeout", ConfValue.int linkcheck_timeout),
   ("linkcheck_workers", ConfValue.int linkcheck_workers),
   ("linkcheck_retries", ConfValue.int linkcheck_retries),
   ("linkcheck_ignore", ConfValue.strList linkcheck_ignore),
   ("linkcheck_rate_limit_timeout", ConfValue.rat linkcheck_rate_limit_timeout),
   ("linkcheck_anchors", ConfValue.bool linkcheck_anchors),
   ("html_theme", ConfValue.str html_theme),
   ("html_title", ConfValue.str html_title),
   ("html_theme_options", ConfValue.theme html_theme_options),
   ("html_static_path", ConfValue.strList html_static_path),
   ("html_permalinks_icon", ConfValue.str html_permalinks_icon),
   ("html_css_files", ConfValue.strList html_css_files)]

/-- A hexadecimal digit. -/
def isHexDigitChar (c : Char) : Bool :=
  c.isDigit || ('a' ≤ c && c ≤ 'f') || ('A' ≤ c && c ≤ 'F')

/-- A string of the form # followed by exactly six hexadecimal digits. -/
def isHexColor (s : String) : Bool :=
  match s.data with
  | '#' :: rest => rest.length = 6 && rest.all isHexDigitChar
  | _ => false

/-- The regex body of the tag whitelist pattern, written out. -/
def digitPlus : Regex := Regex.seq Regex.digit (Regex.star Regex.digit)

def tagRe : Regex :=
  Regex.seq (Regex.char 'v')
    (Regex.seq digitPlus
      (Regex.seq (Regex.char '.')
        (Regex.seq digitPlus
          (Regex.seq (Regex.char '.')
            (Regex.seq digitPlus Regex.eps)))))

-- Helper lemmas about the matching relation.

theorem matches_eps {l : List Char} : Matches Regex.eps l ↔ l = [] := by
  constructor
  · intro h
    cases h
    rfl
  · rintro rfl
    exact Matches.eps

theorem matches_seq_char {c : Char} {r : Regex} {l : List Char} :
    Matches (Regex.seq (Regex.char c) r) l ↔
      ∃ l2, l = c :: l2 ∧ Matches r l2 := by
  constructor
  · intro h
    cases h with
    | seq h1 h2 =>
      cases h1
      exact ⟨_, rfl, h2⟩
  · rintro ⟨l2, rfl, h⟩
    exact Matches.seq (Matches.char c) h

theorem matches_charSeqThen (w : List Char) (r : Regex) (l : List Char) :
    Matches (charSeqThen w r) l ↔ ∃ l2, l = w ++ l2 ∧ Matches r l2 := by
  induction w generalizing l with
  | nil =>
    simp [charSeqThen]
  | cons c cs ih =>
    rw [charSeqThen, matches_seq_char]
    constructor
    · rintro ⟨l2, rfl, h⟩
      rcases (ih l2).mp h with ⟨l3, rfl, h3⟩
      exact ⟨l3, rfl, h3⟩
    · rintro ⟨l2, rfl, h⟩
      exact ⟨cs ++ l2, rfl, (ih _).mpr ⟨l2, rfl, h⟩⟩

theorem matches_charSeq (w l : List Char) :
    Matches (charSeqThen w Regex.eps) l ↔ l = w := by
  rw [matches_charSeqThen]
  constructor
  · rintro ⟨l2, rfl, h⟩
    have h2 := matches_eps.mp h
    subst h2
    exact List.append_nil w
  · rintro rfl
    exact ⟨[], (List.append_nil _).symm, Matches.eps⟩

theorem fullMatch_of_parse (p : String) (pat : Pattern) (s : String)
    (hp : parseRegex p = some pat) :
    fullMatch p s ↔ Matches pat.body s.data := by
  constructor
  · rintro ⟨pat2, hp2, hm⟩
    rw [hp] at hp2
    obtain rfl := Option.some.inj hp2
    exact hm
  · intro hm
    exact ⟨pat, hp, hm⟩

-- Claim theorems.

/-- C1: each of the four version-filter patterns (smv_branch_whitelist,
smv_tag_whitelist, smv_remote_whitelist, smv_released_pattern) and each
entry of linkcheck_ignore is a syntactically valid regular expression:
parsing succeeds for every one of the six strings. -/
theorem C1_patterns_valid :
    (([smv_branch_whitelist, smv_tag_whitelist, smv_remote_whitelist,
       smv_released_pattern] ++ linkcheck_ignore).all
      (fun p => (parseRegex p).isSome)) = true := by
  decide

/-- C2: the light palette and the dark palette bind exactly the same set
of color-role keys: a key is a role of light_css_variables if and only if
it is a role of dark_css_variables. -/
theorem C2_palette_keys_equal :
    ∀ k : String,
      k ∈ light_css_variables.map Prod.fst ↔
        k ∈ dark_css_variables.map Prod.fst := by
  intro k
  rw [show light_css_variables.map Prod.fst
        = dark_css_variables.map Prod.fst from rfl]

/-- C3: every value of both color palettes is the character # followed by
exactly six hexadecimal digits. -/
theorem C3_hex_colors :
    ((light_css_variables ++ dark_css_variables).all
      (fun kv => isHexColor kv.2)) = true := by
  decide

/-- C4: the numeric link-check settings are timeout 30, workers 5,
retries 3 and rate-limit timeout 60.0, and all four are non-negative. -/
theorem C4_linkcheck_numbers :
    linkcheck_timeout = 30 ∧ linkcheck_workers = 5 ∧
    linkcheck_retries = 3 ∧ linkcheck_rate_limit_timeout = 60 ∧
    0 ≤ linkcheck_timeout ∧ 0 ≤ linkcheck_workers ∧
    0 ≤ linkcheck_retries ∧ 0 ≤ linkcheck_rate_limit_timeout := by
  decide

/-- C5: the keys of source_suffix are pairwise distinct, each key begins
with the character . and the keys are exactly .rst and .md. -/
theorem C5_source_suffix_keys :
    (source_suffix.map Prod.fst).Nodup ∧
    (∀ kv ∈ source_suffix, kv.1.data.head? = some '.') ∧
    source_suffix.map Prod.fst = [".rst", ".md"] := by
  refine ⟨by decide, by decide, rfl⟩

/-- C6: the preconditions of the markdown scenario hold in the table: the
string myst_parser is an element of extensions and source_suffix maps .md
to markdown. -/
theorem C6_markdown_preconditions :
    "myst_parser" ∈ extensions ∧
    source_suffix.lookup ".md" = some "markdown" := by
  constructor
  · decide
  · rfl

/-- C7: every setting name of the configuration table is bound exactly
once: the names of confTable are pairwise distinct. -/
theorem C7_setting_names_unique : (confTable.map Prod.fst).Nodup := by
  decide

/-- C8: a string fully matches smv_branch_whitelist exactly when it is
main, and fully matches smv_remote_whitelist exactly when it is origin. -/
theorem C8_single_branch_and_remote :
    ∀ s : String,
      (fullMatch smv_branch_whitelist s ↔ s = "main") ∧
      (fullMatch smv_remote_whitelist s ↔ s = "origin") := by
  intro s
  have hb := fullMatch_of_parse smv_branch_whitelist
    ⟨true, charSeqThen ['m', 'a', 'i', 'n'] Regex.eps, true⟩ s rfl
  have hr := fullMatch_of_parse smv_remote_whitelist
    ⟨true, charSeqThen ['o', 'r', 'i', 'g', 'i', 'n'] Regex.eps, true⟩ s rfl
  rw [hb, hr, matches_charSeq, matches_charSeq,
    show (['m', 'a', 'i', 'n'] : List Char) = "main".data from rfl,
    show (['o', 'r', 'i', 'g', 'i', 'n'] : List Char) = "origin".data from rfl]
  exact ⟨String.ext_iff.symm, String.ext_iff.symm⟩

/-- C9: a string fully matches smv_released_pattern exactly when it is
tags/ followed by a string that fully matches smv_tag_whitelist; hence
every released version is a whitelisted tag. -/
theorem C9_released_iff_tag_with_prefix :
    ∀ s : String,
      fullMatch smv_released_pattern s ↔
        ∃ t : String, s = "tags/" ++ t ∧ fullMatch smv_tag_whitelist t := by
  intro s
  have hrel := fullMatch_of_parse smv_released_pattern
    ⟨true, charSeqThen ['t', 'a', 'g', 's', '/'] tagRe, true⟩ s rfl
  have htag : ∀ t : String, fullMatch smv_tag_whitelist t ↔
      Matches tagRe t.data :=
    fun t => fullMatch_of_parse smv_tag_whitelist ⟨true, tagRe, true⟩ t rfl
  rw [hrel, matches_charSeqThen]
  constructor
  · rintro ⟨l2, hsplit, hm⟩
    refine ⟨String.mk l2, String.ext ?_, (htag (String.mk l2)).mpr hm⟩
    rw [String.data_append]
    exact hsplit
  · rintro ⟨t, rfl, hm⟩
    refine ⟨t.data, ?_, (htag t).mp hm⟩
    rw [String.data_append]

/-- C10: exclude_patterns is empty, so whatever matching relation the
file-discovery filter uses, no path is matched by any exclude pattern. -/
theorem C10_no_exclusions :
    ∀ (m : String → String → Prop) (path : String),
      (∃ p, p ∈ exclude_patterns ∧ m p path) ↔ False := by
  intro m path
  constructor
  · rintro ⟨p, hp, _⟩
    exact List.not_mem_nil p hp
  · intro h
    exact h.elim

end Conf
